import Mathlib

/-!
Verification of the vehicle-diagnostics report pipeline (app.py).

The pipeline is embedded shallowly:

* CSV numeric cells are modelled as exact rationals.  To keep every
  definition executable by plain kernel reduction, the rationals are the
  type `Q` below: an integer numerator with a natural denominator, kept
  normalized by a fuel-based gcd.  The floating-point values of the original
  program are thus idealised as exact decimal arithmetic.
* A pandas DataFrame becomes `DataFrame`: an ordered list of named columns.
* Column subscripting (which raises `KeyError` in Python) becomes the
  partial lookup `DataFrame.col?`; functions whose Python originals can
  raise return `Option` results, with `none` standing for the exception.
* Aggregates of an empty column (which in pandas yield NaN, making the
  dict construction in `summarize_data` fail at the `int()` casts) are
  modelled by `mean?` / `max?` / `min?` returning `none` on the empty list,
  so `summarize_data` yields no summary for a zero-row table, exactly as
  the original raises before returning one.
* Python `round(x, 2)` (round half to even) becomes `round2`; Python
  `int(x)` (truncation toward zero) becomes `pyInt`; Python `str()` of a
  float with a terminating decimal expansion becomes `floatRepr`.
* The in-place header mutation `df.columns = ...` is made explicit by state
  passing: `summarize_data` returns the updated frame together with the
  optional summary, and `generate` threads that frame into the chart stage.
* External collaborators (the LLM chat service, the HTML-to-PDF renderer)
  are parameters of the functions that call them.
-/

/-- Fuel-based Euclidean gcd; the fuel is strictly larger than the first
argument, which decreases along `b % a < a`. -/
def gcdF : Nat → Nat → Nat → Nat
  | 0, _, b => b
  | fuel + 1, a, b => if a = 0 then b else gcdF fuel (b % a) a

/-- Gcd of naturals, executable by plain structural reduction. -/
def natGcd (a b : Nat) : Nat := gcdF (a + 1) a b

/-- Exact rationals with executable arithmetic: numerator over a positive
denominator, kept in lowest terms by the smart constructor `Q.norm`. -/
structure Q where
  num : Int
  den : Nat
deriving DecidableEq

/-- Build a normalized rational from numerator and denominator. -/
def Q.norm (n : Int) (d : Nat) : Q :=
  if d = 0 then ⟨0, 1⟩
  else if n = 0 then ⟨0, 1⟩
  else
    let g := natGcd n.natAbs d
    ⟨Int.tdiv n (g : Int), d / g⟩

instance (n : Nat) : OfNat Q n := ⟨⟨(n : Int), 1⟩⟩

instance : Zero Q := ⟨⟨0, 1⟩⟩

def Q.add (a b : Q) : Q :=
  Q.norm (a.num * (b.den : Int) + b.num * (a.den : Int)) (a.den * b.den)

def Q.sub (a b : Q) : Q :=
  Q.norm (a.num * (b.den : Int) - b.num * (a.den : Int)) (a.den * b.den)

def Q.mul (a b : Q) : Q :=
  Q.norm (a.num * b.num) (a.den * b.den)

def Q.div (a b : Q) : Q :=
  Q.norm ((if b.num < 0 then -(a.num) else a.num) * (b.den : Int))
    (a.den * b.num.natAbs)

instance : Add Q := ⟨Q.add⟩
instance : Sub Q := ⟨Q.sub⟩
instance : Mul Q := ⟨Q.mul⟩
instance : Div Q := ⟨Q.div⟩

/-- Strict comparison by cross multiplication. -/
def Q.blt (a b : Q) : Bool :=
  a.num * (b.den : Int) < b.num * (a.den : Int)

instance : Max Q := ⟨fun a b => if Q.blt a b then b else a⟩
instance : Min Q := ⟨fun a b => if Q.blt b a then b else a⟩

/-- Floor of a rational. -/
def Q.floor (a : Q) : Int := Int.fdiv a.num (a.den : Int)

/-- Ceiling of a rational. -/
def Q.ceil (a : Q) : Int := -(Int.fdiv (-(a.num)) (a.den : Int))

/-- Python `int()` on a real value: truncation toward zero. -/
def pyInt (q : Q) : Int :=
  if q.num < 0 then q.ceil else q.floor

/-- Python `round` to an integer: round half to even (banker's rounding),
as performed by `round()` / numpy on float values, idealised to exact
rationals. -/
def pyRoundInt (q : Q) : Int :=
  if q - ⟨q.floor, 1⟩ = (⟨1, 2⟩ : Q) then
    (if q.floor % 2 = 0 then q.floor else q.floor + 1)
  else Q.floor (q + ⟨1, 2⟩)

/-- Python `round(x, 2)`. -/
def round2 (q : Q) : Q :=
  (⟨pyRoundInt (q * 100), 1⟩ : Q) / 100

/-- Series mean (`.mean()`); `none` on an empty series, where pandas
produces NaN and the dict construction in `summarize_data` cannot
complete. -/
def mean? (l : List Q) : Option Q :=
  if l.length = 0 then none else some (l.sum / (⟨(l.length : Int), 1⟩ : Q))

/-- Series maximum (`.max()`); `none` on an empty series. -/
def max? : List Q → Option Q
  | [] => none
  | x :: xs => some (xs.foldl max x)

/-- Series minimum (`.min()`); `none` on an empty series. -/
def min? : List Q → Option Q
  | [] => none
  | x :: xs => some (xs.foldl min x)

/-- Total version of the mean, for stating results of succeeding runs. -/
def meanL (l : List Q) : Q := l.sum / (⟨(l.length : Int), 1⟩ : Q)

/-- Total version of the maximum of a nonempty list. -/
def maxL : List Q → Q
  | [] => 0
  | x :: xs => xs.foldl max x

/-- Total version of the minimum of a nonempty list. -/
def minL : List Q → Q
  | [] => 0
  | x :: xs => xs.foldl min x

/-- The characters stripped by Python `str.strip()` once the header has
been reduced to ASCII. -/
def isPySpace (c : Char) : Bool :=
  c == ' ' || c == '\t' || c == '\n' || c == '\r' || c == '\x0b' || c == '\x0c'

/-- Strip leading and trailing whitespace from a character list. -/
def pyStripChars (l : List Char) : List Char :=
  ((l.dropWhile isPySpace).reverse.dropWhile isPySpace).reverse

/-- Header normalization, one header at a time:
`.str.encode(ascii, ignore).str.decode(ascii).str.strip()` — drop every
non-ASCII character, then strip surrounding whitespace. -/
def normalizeHeader (s : String) : String :=
  ⟨pyStripChars (s.data.filter (fun c => c.toNat ≤ 127))⟩

/-- A pandas DataFrame: ordered named columns of rationals. -/
structure DataFrame where
  cols : List (String × List Q)
deriving DecidableEq

/-- Column subscript `df[name]`: the first column carrying `name`, or
`none` standing for the `KeyError` the original raises. -/
def DataFrame.col? (df : DataFrame) (name : String) : Option (List Q) :=
  (df.cols.find? (fun p => p.1 == name)).map (fun p => p.2)

/-- The header assignment `df.columns = df.columns.str.encode(...)...`:
every header normalized, all cell data untouched. -/
def normalize_columns (df : DataFrame) : DataFrame :=
  ⟨df.cols.map (fun p => (normalizeHeader p.1, p.2))⟩

/-- The Summary Record: the ten fixed metric keys of `summarize_data`. -/
structure Summary where
  engine_temp_avg : Q
  rpm_max : Int
  rpm_avg : Int
  speed_max : Int
  maf_avg : Q
  throttle_max : Q
  ambient_min : Q
  intake_temp_avg : Q
  pedal_d_range : Q × Q
  pedal_e_range : Q × Q
deriving DecidableEq

/-- Dict entry `engine_temp_avg: round(df[...].mean(), 2)`. -/
def entry_engine_temp_avg (df2 : DataFrame) : Option Q :=
  (df2.col? ("Engine Coolant Temperature [C]")).bind fun c =>
  (mean? c).bind fun m => some (round2 m)

/-- Dict entry `rpm_max: int(df[...].max())`. -/
def entry_rpm_max (df2 : DataFrame) : Option Int :=
  (df2.col? ("Engine RPM [RPM]")).bind fun c =>
  (max? c).bind fun m => some (pyInt m)

/-- Dict entry `rpm_avg: int(df[...].mean())`. -/
def entry_rpm_avg (df2 : DataFrame) : Option Int :=
  (df2.col? ("Engine RPM [RPM]")).bind fun c =>
  (mean? c).bind fun m => some (pyInt m)

/-- Dict entry `speed_max: int(df[...].max())`. -/
def entry_speed_max (df2 : DataFrame) : Option Int :=
  (df2.col? ("Vehicle Speed Sensor [km/h]")).bind fun c =>
  (max? c).bind fun m => some (pyInt m)

/-- Dict entry `maf_avg: round(df[...].mean(), 2)`. -/
def entry_maf_avg (df2 : DataFrame) : Option Q :=
  (df2.col? ("Air Flow Rate from Mass Flow Sensor [g/s]")).bind fun c =>
  (mean? c).bind fun m => some (round2 m)

/-- Dict entry `throttle_max: round(df[...].max(), 2)`. -/
def entry_throttle_max (df2 : DataFrame) : Option Q :=
  (df2.col? ("Absolute Throttle Position [%]")).bind fun c =>
  (max? c).bind fun m => some (round2 m)

/-- Dict entry `ambient_min: round(df[...].min(), 2)`. -/
def entry_ambient_min (df2 : DataFrame) : Option Q :=
  (df2.col? ("Ambient Air Temperature [C]")).bind fun c =>
  (min? c).bind fun m => some (round2 m)

/-- Dict entry `intake_temp_avg: round(df[...].mean(), 2)`. -/
def entry_intake_temp_avg (df2 : DataFrame) : Option Q :=
  (df2.col? ("Intake Air Temperature [C]")).bind fun c =>
  (mean? c).bind fun m => some (round2 m)

/-- Dict entry `pedal_d_range: (df[...].min(), df[...].max())` — note the
components are NOT rounded in the source. -/
def entry_pedal_d_range (df2 : DataFrame) : Option (Q × Q) :=
  (df2.col? ("Accelerator Pedal Position D [%]")).bind fun cn =>
  (min? cn).bind fun n =>
  (df2.col? ("Accelerator Pedal Position D [%]")).bind fun cx =>
  (max? cx).bind fun x => some (n, x)

/-- Dict entry `pedal_e_range: (df[...].min(), df[...].max())` — note the
components are NOT rounded in the source. -/
def entry_pedal_e_range (df2 : DataFrame) : Option (Q × Q) :=
  (df2.col? ("Accelerator Pedal Position E [%]")).bind fun cn =>
  (min? cn).bind fun n =>
  (df2.col? ("Accelerator Pedal Position E [%]")).bind fun cx =>
  (max? cx).bind fun x => some (n, x)

/-- `summarize_data(df)`: normalizes the headers in place (returned here as
the first component, making the mutation explicit), then builds the summary
dict entry by entry; any failed column lookup or empty-column aggregate
makes the second component `none`, standing for the exception the original
raises. -/
def summarize_data (df : DataFrame) : DataFrame × Option Summary :=
  let df2 := normalize_columns df
  (df2,
    (entry_engine_temp_avg df2).bind fun v1 =>
    (entry_rpm_max df2).bind fun v2 =>
    (entry_rpm_avg df2).bind fun v3 =>
    (entry_speed_max df2).bind fun v4 =>
    (entry_maf_avg df2).bind fun v5 =>
    (entry_throttle_max df2).bind fun v6 =>
    (entry_ambient_min df2).bind fun v7 =>
    (entry_intake_temp_avg df2).bind fun v8 =>
    (entry_pedal_d_range df2).bind fun v9 =>
    (entry_pedal_e_range df2).bind fun v10 =>
    some (Summary.mk v1 v2 v3 v4 v5 v6 v7 v8 v9 v10))

/-- The nine distinct column names subscripted by `summarize_data`. -/
def summaryColumns : List String :=
  ["Engine Coolant Temperature [C]",
   "Engine RPM [RPM]",
   "Vehicle Speed Sensor [km/h]",
   "Air Flow Rate from Mass Flow Sensor [g/s]",
   "Absolute Throttle Position [%]",
   "Ambient Air Temperature [C]",
   "Intake Air Temperature [C]",
   "Accelerator Pedal Position D [%]",
   "Accelerator Pedal Position E [%]"]

/-- Modelled from the spec: the list of ten required columns named by the
interface section of the specification — `Time` plus the nine columns the
Summary Extractor subscripts.  (The code itself requires only the nine of
`summaryColumns` inside `summarize_data`; `Time` is subscripted only by the
chart stage.) -/
def specRequiredColumns : List String :=
  "Time" :: summaryColumns

def dfEx : DataFrame :=
  ⟨[("Time", [0, 1, 2]),
    ("Engine Coolant Temperature [C]", [80, 82, 84]),
    ("Engine RPM [RPM]", [1000, 2000, 3000]),
    ("Vehicle Speed Sensor [km/h]", [10, 20, 30]),
    ("Air Flow Rate from Mass Flow Sensor [g/s]", [1, 2, 3]),
    ("Absolute Throttle Position [%]", [10, 20, 30]),
    ("Ambient Air Temperature [C]", [5, 6, 7]),
    ("Intake Air Temperature [C]", [20, 30, 40]),
    ("Accelerator Pedal Position D [%]", [1, 2, 3]),
    ("Accelerator Pedal Position E [%]", [2, 3, 4])]⟩

/-- Fractional decimal digits of `q` (expected `0 ≤ q < 1`), up to the given
fuel; terminates early when the remainder is zero, so a terminating decimal
is printed exactly, matching Python `str()` on the idealised values. -/
def fracDigits : Nat → Q → List Char
  | 0, _ => []
  | fuel + 1, q =>
    if q = 0 then []
    else
      let d := (q * 10).floor.toNat
      Char.ofNat (48 + d) :: fracDigits fuel (q * 10 - ⟨(d : Int), 1⟩)

/-- Python `str()` of a nonnegative float with terminating decimal
expansion: integer part, a dot, then the fractional digits (`"82.0"` when
the value is integral). -/
def floatReprNN (q : Q) : String :=
  let ds := fracDigits 30 (q - ⟨q.floor, 1⟩)
  toString q.floor.toNat ++ "." ++ (if ds.isEmpty then "0" else ⟨ds⟩)

/-- Python `str()` of a float with terminating decimal expansion. -/
def floatRepr (q : Q) : String :=
  if q.num < 0 then "-" ++ floatReprNN (0 - q) else floatReprNN q

/-- `build_question(summary)`: the f-string of the source, with each hole
replaced by the `str()` rendering of the corresponding summary value
(`floatRepr` for floats, `toString` for ints). -/
def build_question (s : Summary) : String :=
  "\nBased on the summarized OBD-II vehicle data over time, provide a detailed diagnostic report:\n1. Assess overall vehicle health.\n2. Identify anomalies or issues.\n3. Suggest maintenance tips.\n\nData Summary:\n- Avg Engine Coolant Temp: "
  ++ floatRepr s.engine_temp_avg
  ++ " °C\n- Max Engine RPM: "
  ++ toString s.rpm_max
  ++ " RPM\n- Avg Engine RPM: "
  ++ toString s.rpm_avg
  ++ " RPM\n- Max Speed: "
  ++ toString s.speed_max
  ++ " km/h\n- Avg Air Flow (MAF): "
  ++ floatRepr s.maf_avg
  ++ " g/s\n- Max Throttle: "
  ++ floatRepr s.throttle_max
  ++ " %\n- Min Ambient Temp: "
  ++ floatRepr s.ambient_min
  ++ " °C\n- Avg Intake Air Temp: "
  ++ floatRepr s.intake_temp_avg
  ++ " °C\n- Pedal D: "
  ++ floatRepr s.pedal_d_range.1
  ++ "% to "
  ++ floatRepr s.pedal_d_range.2
  ++ "%\n- Pedal E: "
  ++ floatRepr s.pedal_e_range.1
  ++ "% to "
  ++ floatRepr s.pedal_e_range.2
  ++ "%\n"

/-- `generate_report(question)`: invokes the external chat service (here a
parameter `llm`) on the question and wraps the raw report in the fixed
presentational markup. -/
def generate_report (llm : String → String) (question : String) : String :=
  "\n    <div style=\x27border:2px solid #007BFF; padding:20px; background-color:#F8F9FA; border-radius:10px;\x27>\n        <h3 style=\x27color:#007BFF;\x27>Vehicle Diagnostic Report</h3>\n        <p style=\x27white-space:pre-wrap;\x27>"
  ++ llm question
  ++ "</p>\n    </div>\n    "

/-- `generate_summary_table(summary)`: the fixed two-column HTML table with
each `format` hole replaced by the `str()` rendering of the corresponding
summary value. -/
def generate_summary_table (s : Summary) : String :=
  "\n    <table style=\x27width:100%; border-collapse: collapse; margin-bottom: 20px;\x27>\n        <thead>\n            <tr style=\x27background-color:#007BFF; color:white;\x27>\n                <th style=\x27padding: 8px; border: 1px solid #ddd;\x27>Metric</th>\n                <th style=\x27padding: 8px; border: 1px solid #ddd;\x27>Value</th>\n            </tr>\n        </thead>\n        <tbody>\n            <tr><td>Avg Engine Coolant Temp</td><td>"
  ++ floatRepr s.engine_temp_avg
  ++ " °C</td></tr>\n            <tr><td>Max Engine RPM</td><td>"
  ++ toString s.rpm_max
  ++ " RPM</td></tr>\n            <tr><td>Avg Engine RPM</td><td>"
  ++ toString s.rpm_avg
  ++ " RPM</td></tr>\n            <tr><td>Max Speed</td><td>"
  ++ toString s.speed_max
  ++ " km/h</td></tr>\n            <tr><td>Avg Air Flow (MAF)</td><td>"
  ++ floatRepr s.maf_avg
  ++ " g/s</td></tr>\n            <tr><td>Max Throttle Position</td><td>"
  ++ floatRepr s.throttle_max
  ++ " %</td></tr>\n            <tr><td>Min Ambient Temp</td><td>"
  ++ floatRepr s.ambient_min
  ++ " °C</td></tr>\n            <tr><td>Avg Intake Air Temp</td><td>"
  ++ floatRepr s.intake_temp_avg
  ++ " °C</td></tr>\n            <tr><td>Pedal D Range</td><td>"
  ++ floatRepr s.pedal_d_range.1
  ++ "% - "
  ++ floatRepr s.pedal_d_range.2
  ++ "%</td></tr>\n            <tr><td>Pedal E Range</td><td>"
  ++ floatRepr s.pedal_e_range.1
  ++ "% - "
  ++ floatRepr s.pedal_e_range.2
  ++ "%</td></tr>\n        </tbody>\n    </table>\n    "

/-- One plotly chart fragment, as the data actually handed to the charting
library: one scatter trace (`x`, `y`, mode, series name) plus the layout
titles.  `fig.to_html` serialization is the external collaborator and is
modelled as this descriptor itself. -/
structure Chart where
  x : List Q
  y : List Q
  mode : String
  series_name : String
  title : String
  xaxis_title : String
  yaxis_title : String
deriving DecidableEq

/-- `create_graph(df, x_col, y_col, title, explanation)`: subscripts the two
columns (raising, i.e. `none`, when absent), builds a single-trace line
figure with the given title, x-axis label `Timestamp` and y-axis label
`y_col`, and pairs it with the explanation. -/
def create_graph (df : DataFrame) (x_col y_col title explanation : String) :
    Option (Chart × String) :=
  (df.col? x_col).bind fun xs =>
  (df.col? y_col).bind fun ys =>
  some ({ x := xs, y := ys, mode := "lines", series_name := y_col,
          title := title, xaxis_title := "Timestamp", yaxis_title := y_col },
        explanation)

/-- The four `graphs.append(create_graph(...))` calls of the `/generate`
handler, in source order. -/
def make_graphs (df : DataFrame) : Option (List (Chart × String)) :=
  (create_graph df ("Time") ("Engine Coolant Temperature [C]")
    ("Engine Coolant Temperature Over Time") ("Monitors engine warming.")).bind fun g1 =>
  (create_graph df ("Time") ("Engine RPM [RPM]")
    ("Engine RPM Over Time") ("Shows engine revolutions per minute during operation.")).bind fun g2 =>
  (create_graph df ("Time") ("Vehicle Speed Sensor [km/h]")
    ("Vehicle Speed Over Time") ("Helps assess speed behavior.")).bind fun g3 =>
  (create_graph df ("Time") ("Accelerator Pedal Position D [%]")
    ("Pedal D Position Over Time") ("Reflects throttle input from driver.")).bind fun g4 =>
  some [g1, g2, g3, g4]

/-- Responses of the `/generate` handler: the early HTTP 400 return, an
unhandled exception surfacing as a generic server error, or the rendered
result page. -/
inductive GenResponse
  | badRequest (body : String) (code : Nat)
  | serverError
  | ok (report : String) (graphs : List (Chart × String)) (summary_table : String)
deriving DecidableEq

/-- The `/generate` handler.  The upload is `none` when no file comes with
the `datafile` field (Flask then answers 400, either via the handler's
explicit check or via the eager `request.files` lookup); otherwise the
uploaded CSV is modelled as the already-parsed frame `pd.read_csv`
returns.  The external LLM is the parameter `llm`. -/
def generate (llm : String → String) (upload : Option DataFrame) : GenResponse :=
  match upload with
  | none => .badRequest ("No file uploaded") 400
  | some df =>
    match summarize_data df with
    | (_, none) => .serverError
    | (df2, some summary) =>
      let question := build_question summary
      let report := generate_report llm question
      match make_graphs df2 with
      | none => .serverError
      | some graphs => .ok report graphs (generate_summary_table summary)

/-- The in-memory byte buffer (`BytesIO`) holding the rendered PDF:
contents plus current stream position. -/
structure Buffer where
  data : List Nat
  pos : Nat
deriving DecidableEq

/-- Result of `pisa.CreatePDF`: the error flag the caller inspects and the
bytes written into the destination buffer. -/
structure PisaStatus where
  err : Bool
  bytes : List Nat
deriving DecidableEq

/-- `create_pdf(report_html)`: runs the external renderer (parameter
`pisaCreatePDF`), returns `none` exactly when the status reports an error,
otherwise the buffer rewound to position 0. -/
def create_pdf (pisaCreatePDF : String → PisaStatus) (report_html : String) :
    Option Buffer :=
  let st := pisaCreatePDF report_html
  if st.err then none
  else some { data := st.bytes, pos := 0 }

/-- Responses of the `/download` handler: a file attachment via `send_file`
or a plain-text error with a status code. -/
inductive DownloadResponse
  | file (buf : Buffer) (mimetype : String) (as_attachment : Bool)
      (attachment_name : String)
  | plain (body : String) (code : Nat)
deriving DecidableEq

/-- The `/download` handler: renders the posted `report_html`; a truthy
result (a `BytesIO` is always truthy, so exactly a non-`None` one) is sent
as a PDF attachment named `vehicle_report.pdf`, a `None` result becomes the
fixed HTTP 500 plain-text response. -/
def download (pisaCreatePDF : String → PisaStatus) (report_html : String) :
    DownloadResponse :=
  match create_pdf pisaCreatePDF report_html with
  | some pdf => .file pdf ("application/pdf") true ("vehicle_report.pdf")
  | none => .plain ("Failed to generate PDF") 500

/-- Substring containment, used to state what the built prompt shows. -/
def containsSub (s t : String) : Prop :=
  ∃ a b, s = a ++ (t ++ b)

/-- The column a lookup finds, defaulting to the empty column; used to state
results about succeeding runs, where the lookup is known to succeed. -/
def colD (df : DataFrame) (name : String) : List Q :=
  (df.col? name).getD []

/-- A stand-in for the external chat service: any function from prompt to
report text. -/
def llm0 : String → String := fun _ => "All systems nominal."

/-- A clean ten-column reading table whose coolant column is `[80, 82, 84]`. -/
def dfP : DataFrame :=
  ⟨[("Time", [0, 1]),
    ("Engine Coolant Temperature [C]", [80, 90]),
    ("Engine RPM [RPM]", [1000, 2000]),
    ("Vehicle Speed Sensor [km/h]", [10, 20]),
    ("Air Flow Rate from Mass Flow Sensor [g/s]", [1, 3]),
    ("Absolute Throttle Position [%]", [10, 30]),
    ("Ambient Air Temperature [C]", [5, 7]),
    ("Intake Air Temperature [C]", [20, 40]),
    ("Accelerator Pedal Position D [%]", [(1234 : Q) / 1000, 2]),
    ("Accelerator Pedal Position E [%]", [1, 2])]⟩

/-- The reading table of `dfEx` with the `Time` column removed: all nine
columns `summarize_data` subscripts are present, `Time` is not. -/
def dfNoTime : DataFrame :=
  ⟨[("Engine Coolant Temperature [C]", [80, 82, 84]),
    ("Engine RPM [RPM]", [1000, 2000, 3000]),
    ("Vehicle Speed Sensor [km/h]", [10, 20, 30]),
    ("Air Flow Rate from Mass Flow Sensor [g/s]", [1, 2, 3]),
    ("Absolute Throttle Position [%]", [10, 20, 30]),
    ("Ambient Air Temperature [C]", [5, 6, 7]),
    ("Intake Air Temperature [C]", [20, 30, 40]),
    ("Accelerator Pedal Position D [%]", [1, 2, 3]),
    ("Accelerator Pedal Position E [%]", [2, 3, 4])]⟩

/-- The reading table of `dfEx` with the `Engine RPM [RPM]` column removed:
one of the columns `summarize_data` subscripts is missing. -/
def dfM : DataFrame :=
  ⟨[("Time", [0, 1, 2]),
    ("Engine Coolant Temperature [C]", [80, 82, 84]),
    ("Vehicle Speed Sensor [km/h]", [10, 20, 30]),
    ("Air Flow Rate from Mass Flow Sensor [g/s]", [1, 2, 3]),
    ("Absolute Throttle Position [%]", [10, 20, 30]),
    ("Ambient Air Temperature [C]", [5, 6, 7]),
    ("Intake Air Temperature [C]", [20, 30, 40]),
    ("Accelerator Pedal Position D [%]", [1, 2, 3]),
    ("Accelerator Pedal Position E [%]", [2, 3, 4])]⟩

/-- A reading table with all ten required columns present and zero rows. -/
def dfE : DataFrame :=
  ⟨[("Time", []),
    ("Engine Coolant Temperature [C]", []),
    ("Engine RPM [RPM]", []),
    ("Vehicle Speed Sensor [km/h]", []),
    ("Air Flow Rate from Mass Flow Sensor [g/s]", []),
    ("Absolute Throttle Position [%]", []),
    ("Ambient Air Temperature [C]", []),
    ("Intake Air Temperature [C]", []),
    ("Accelerator Pedal Position D [%]", []),
    ("Accelerator Pedal Position E [%]", [])]⟩

/-- A reading table whose headers carry a trailing blank (an encoding
artifact the Column Normalizer is there to repair): raw lookups under the
clean names fail, lookups after normalization succeed. -/
def dfDirty : DataFrame :=
  ⟨[("Time ", [0, 1]),
    ("Engine Coolant Temperature [C] ", [80, 90]),
    ("Engine RPM [RPM] ", [1000, 2000]),
    ("Vehicle Speed Sensor [km/h] ", [10, 20]),
    ("Air Flow Rate from Mass Flow Sensor [g/s] ", [1, 3]),
    ("Absolute Throttle Position [%] ", [10, 30]),
    ("Ambient Air Temperature [C] ", [5, 7]),
    ("Intake Air Temperature [C] ", [20, 40]),
    ("Accelerator Pedal Position D [%] ", [1, 2]),
    ("Accelerator Pedal Position E [%] ", [1, 2])]⟩

/-- The `/generate` response on the clean example table. -/
def genEx : GenResponse := generate llm0 (some dfEx)

def genExReport : String :=
  match genEx with
  | .ok r _ _ => r
  | _ => ""

def genExGraphs : List (Chart × String) :=
  match genEx with
  | .ok _ g _ => g
  | _ => []

def genExTable : String :=
  match genEx with
  | .ok _ _ t => t
  | _ => ""

/-- The `/generate` response on the dirty-header table. -/
def genDirty : GenResponse := generate llm0 (some dfDirty)

def genDirtyReport : String :=
  match genDirty with
  | .ok r _ _ => r
  | _ => ""

def genDirtyGraphs : List (Chart × String) :=
  match genDirty with
  | .ok _ g _ => g
  | _ => []

def genDirtyTable : String :=
  match genDirty with
  | .ok _ _ t => t
  | _ => ""

theorem containsSub_refl (t : String) : containsSub t t :=
  ⟨"", "", by rw [String.empty_append, String.append_empty]⟩

theorem containsSub_appl (s t u : String) (h : containsSub s u) :
    containsSub (s ++ t) u := by
  rcases h with ⟨a, b, rfl⟩
  exact ⟨a, b ++ t, by simp [String.append_assoc]⟩

theorem containsSub_appr (s t u : String) (h : containsSub t u) :
    containsSub (s ++ t) u := by
  rcases h with ⟨a, b, rfl⟩
  exact ⟨s ++ a, b, by simp [String.append_assoc]⟩

theorem head?_dropWhile_false (p : Char → Bool) (l : List Char) (c : Char)
    (h : (l.dropWhile p).head? = some c) : p c = false := by
  induction l with
  | nil => simp [List.dropWhile] at h
  | cons a as ih =>
    rw [List.dropWhile_cons] at h
    by_cases hp : p a
    · simp [hp] at h; exact ih h
    · simp [hp] at h; subst h; simpa using hp

theorem getLast?_dropWhile (p : Char → Bool) (l : List Char) (c : Char)
    (h : (l.dropWhile p).getLast? = some c) : l.getLast? = some c := by
  induction l with
  | nil => simp [List.dropWhile] at h
  | cons a as ih =>
    rw [List.dropWhile_cons] at h
    by_cases hp : p a
    · simp only [hp, if_true] at h
      have has : as ≠ [] := by
        intro he; rw [he] at h; simp [List.dropWhile] at h
      rcases as with _ | ⟨b, bs⟩
      · exact absurd rfl has
      · rw [List.getLast?_cons_cons]; exact ih h
    · simpa [hp] using h

theorem mean?_eq_some {l : List Q} {m : Q} (h : mean? l = some m) :
    l ≠ [] ∧ m = meanL l := by
  unfold mean? at h
  by_cases hl : l.length = 0
  · rw [if_pos hl] at h; exact absurd h (by simp)
  · rw [if_neg hl] at h
    refine ⟨fun he => hl (by rw [he]; rfl), ?_⟩
    rcases h with h
    simp only [Option.some.injEq] at h
    rw [← h]; rfl

theorem mean?_of_ne_nil {l : List Q} (h : l ≠ []) : mean? l = some (meanL l) := by
  unfold mean? meanL
  rw [if_neg (by simpa [List.length_eq_zero] using h)]

theorem max?_eq_some {l : List Q} {m : Q} (h : max? l = some m) :
    l ≠ [] ∧ m = maxL l := by
  rcases l with _ | ⟨x, xs⟩
  · exact absurd h (by simp [max?])
  · refine ⟨by simp, ?_⟩
    simp only [max?, Option.some.injEq] at h
    rw [← h]; rfl

theorem max?_of_ne_nil {l : List Q} (h : l ≠ []) : max? l = some (maxL l) := by
  rcases l with _ | ⟨x, xs⟩
  · exact absurd rfl h
  · rfl

theorem min?_eq_some {l : List Q} {m : Q} (h : min? l = some m) :
    l ≠ [] ∧ m = minL l := by
  rcases l with _ | ⟨x, xs⟩
  · exact absurd h (by simp [min?])
  · refine ⟨by simp, ?_⟩
    simp only [min?, Option.some.injEq] at h
    rw [← h]; rfl

theorem min?_of_ne_nil {l : List Q} (h : l ≠ []) : min? l = some (minL l) := by
  rcases l with _ | ⟨x, xs⟩
  · exact absurd rfl h
  · rfl

theorem col?_mem {df : DataFrame} {n : String} {l : List Q}
    (h : df.col? n = some l) : ∃ p, p ∈ df.cols ∧ p.2 = l := by
  unfold DataFrame.col? at h
  rcases hf : df.cols.find? (fun p => p.1 == n) with _ | p
  · rw [hf] at h; exact absurd h (by simp)
  · rw [hf] at h
    simp only [Option.map_some', Option.some.injEq] at h
    exact ⟨p, List.mem_of_find?_eq_some hf, h⟩

theorem col?_length {df : DataFrame} {n : String} {l : List Q} {k : Nat}
    (h : df.col? n = some l) (hr : ∀ p ∈ df.cols, p.2.length = k) :
    l.length = k := by
  rcases col?_mem h with ⟨p, hp, he⟩
  rw [← he]; exact hr p hp

theorem normalize_columns_length {df : DataFrame} {k : Nat}
    (hr : ∀ p ∈ df.cols, p.2.length = k) :
    ∀ p ∈ (normalize_columns df).cols, p.2.length = k := by
  intro p hp
  simp only [normalize_columns, List.mem_map] at hp
  rcases hp with ⟨q, hq, rfl⟩
  exact hr q hq

theorem summarize_data_eq_some {df : DataFrame} {s : Summary}
    (h : (summarize_data df).2 = some s) :
    ∃ lCool lRpm lSpd lMaf lThr lAmb lInt lPd lPe,
      (normalize_columns df).col? ("Engine Coolant Temperature [C]") = some lCool ∧
      (normalize_columns df).col? ("Engine RPM [RPM]") = some lRpm ∧
      (normalize_columns df).col? ("Vehicle Speed Sensor [km/h]") = some lSpd ∧
      (normalize_columns df).col? ("Air Flow Rate from Mass Flow Sensor [g/s]") = some lMaf ∧
      (normalize_columns df).col? ("Absolute Throttle Position [%]") = some lThr ∧
      (normalize_columns df).col? ("Ambient Air Temperature [C]") = some lAmb ∧
      (normalize_columns df).col? ("Intake Air Temperature [C]") = some lInt ∧
      (normalize_columns df).col? ("Accelerator Pedal Position D [%]") = some lPd ∧
      (normalize_columns df).col? ("Accelerator Pedal Position E [%]") = some lPe ∧
      lCool ≠ [] ∧ lRpm ≠ [] ∧ lSpd ≠ [] ∧ lMaf ≠ [] ∧ lThr ≠ [] ∧
      lAmb ≠ [] ∧ lInt ≠ [] ∧ lPd ≠ [] ∧ lPe ≠ [] ∧
      s = ⟨round2 (meanL lCool), pyInt (maxL lRpm), pyInt (meanL lRpm),
           pyInt (maxL lSpd), round2 (meanL lMaf), round2 (maxL lThr),
           round2 (minL lAmb), round2 (meanL lInt),
           (minL lPd, maxL lPd), (minL lPe, maxL lPe)⟩ := by
  simp only [summarize_data, Option.bind_eq_some, Option.some.injEq] at h
  obtain ⟨v1, h1, v2, h2, v3, h3, v4, h4, v5, h5, v6, h6, v7, h7, v8, h8,
    v9, h9, v10, h10, hs⟩ := h
  simp only [entry_engine_temp_avg, entry_rpm_max, entry_rpm_avg,
    entry_speed_max, entry_maf_avg, entry_throttle_max, entry_ambient_min,
    entry_intake_temp_avg, entry_pedal_d_range, entry_pedal_e_range,
    Option.bind_eq_some, Option.some.injEq] at h1 h2 h3 h4 h5 h6 h7 h8 h9 h10
  obtain ⟨c1, hc1, m1, hm1, hv1⟩ := h1
  obtain ⟨c2, hc2, m2, hm2, hv2⟩ := h2
  obtain ⟨c3, hc3, m3, hm3, hv3⟩ := h3
  obtain ⟨c4, hc4, m4, hm4, hv4⟩ := h4
  obtain ⟨c5, hc5, m5, hm5, hv5⟩ := h5
  obtain ⟨c6, hc6, m6, hm6, hv6⟩ := h6
  obtain ⟨c7, hc7, m7, hm7, hv7⟩ := h7
  obtain ⟨c8, hc8, m8, hm8, hv8⟩ := h8
  obtain ⟨c9a, hc9a, n9, hn9, c9b, hc9b, x9, hx9, hv9⟩ := h9
  obtain ⟨c10a, hc10a, n10, hn10, c10b, hc10b, x10, hx10, hv10⟩ := h10
  have hcc3 : c3 = c2 := by rw [hc2] at hc3; exact (Option.some.inj hc3).symm
  subst hcc3
  have hcc9 : c9b = c9a := by rw [hc9a] at hc9b; exact (Option.some.inj hc9b).symm
  subst hcc9
  have hcc10 : c10b = c10a := by rw [hc10a] at hc10b; exact (Option.some.inj hc10b).symm
  subst hcc10
  rcases mean?_eq_some hm1 with ⟨hne1, rfl⟩
  rcases max?_eq_some hm2 with ⟨hne2, rfl⟩
  rcases mean?_eq_some hm3 with ⟨-, rfl⟩
  rcases max?_eq_some hm4 with ⟨hne4, rfl⟩
  rcases mean?_eq_some hm5 with ⟨hne5, rfl⟩
  rcases max?_eq_some hm6 with ⟨hne6, rfl⟩
  rcases min?_eq_some hm7 with ⟨hne7, rfl⟩
  rcases mean?_eq_some hm8 with ⟨hne8, rfl⟩
  rcases min?_eq_some hn9 with ⟨hne9, rfl⟩
  rcases max?_eq_some hx9 with ⟨-, rfl⟩
  rcases min?_eq_some hn10 with ⟨hne10, rfl⟩
  rcases max?_eq_some hx10 with ⟨-, rfl⟩
  refine ⟨c1, c3, c4, c5, c6, c7, c8, c9b, c10b,
    hc1, hc2, hc4, hc5, hc6, hc7, hc8, hc9a, hc10a,
    hne1, hne2, hne4, hne5, hne6, hne7, hne8, hne9, hne10, ?_⟩
  rw [← hs, ← hv1, ← hv2, ← hv3, ← hv4, ← hv5, ← hv6, ← hv7, ← hv8,
    ← hv9, ← hv10]

theorem summarize_data_of_cols {df : DataFrame} {n : Nat}
    (hcols : ∀ c ∈ summaryColumns, (normalize_columns df).col? c ≠ none)
    (hn : n ≠ 0) (hrect : ∀ p ∈ df.cols, p.2.length = n) :
    (summarize_data df).2 =
      some ⟨round2 (meanL (colD (normalize_columns df) ("Engine Coolant Temperature [C]"))),
        pyInt (maxL (colD (normalize_columns df) ("Engine RPM [RPM]"))),
        pyInt (meanL (colD (normalize_columns df) ("Engine RPM [RPM]"))),
        pyInt (maxL (colD (normalize_columns df) ("Vehicle Speed Sensor [km/h]"))),
        round2 (meanL (colD (normalize_columns df) ("Air Flow Rate from Mass Flow Sensor [g/s]"))),
        round2 (maxL (colD (normalize_columns df) ("Absolute Throttle Position [%]"))),
        round2 (minL (colD (normalize_columns df) ("Ambient Air Temperature [C]"))),
        round2 (meanL (colD (normalize_columns df) ("Intake Air Temperature [C]"))),
        (minL (colD (normalize_columns df) ("Accelerator Pedal Position D [%]")),
         maxL (colD (normalize_columns df) ("Accelerator Pedal Position D [%]"))),
        (minL (colD (normalize_columns df) ("Accelerator Pedal Position E [%]")),
         maxL (colD (normalize_columns df) ("Accelerator Pedal Position E [%]")))⟩ := by
  have hrect2 := normalize_columns_length hrect
  have hget : ∀ c ∈ summaryColumns,
      (normalize_columns df).col? c = some (colD (normalize_columns df) c) ∧
      colD (normalize_columns df) c ≠ [] := by
    intro c hc
    rcases ho : (normalize_columns df).col? c with _ | l
    · exact absurd ho (hcols c hc)
    · have hlen : l.length = n := col?_length ho hrect2
      have hlne : l ≠ [] := by
        intro he; rw [he] at hlen; exact hn hlen.symm
      constructor
      · rw [colD, ho]; rfl
      · rw [colD, ho]; exact hlne
  have g1 := hget ("Engine Coolant Temperature [C]") (by simp [summaryColumns])
  have g2 := hget ("Engine RPM [RPM]") (by simp [summaryColumns])
  have g3 := hget ("Vehicle Speed Sensor [km/h]") (by simp [summaryColumns])
  have g4 := hget ("Air Flow Rate from Mass Flow Sensor [g/s]") (by simp [summaryColumns])
  have g5 := hget ("Absolute Throttle Position [%]") (by simp [summaryColumns])
  have g6 := hget ("Ambient Air Temperature [C]") (by simp [summaryColumns])
  have g7 := hget ("Intake Air Temperature [C]") (by simp [summaryColumns])
  have g8 := hget ("Accelerator Pedal Position D [%]") (by simp [summaryColumns])
  have g9 := hget ("Accelerator Pedal Position E [%]") (by simp [summaryColumns])
  simp only [summarize_data, entry_engine_temp_avg, entry_rpm_max,
    entry_rpm_avg, entry_speed_max, entry_maf_avg, entry_throttle_max,
    entry_ambient_min, entry_intake_temp_avg, entry_pedal_d_range,
    entry_pedal_e_range, g1.1, g2.1, g3.1, g4.1, g5.1, g6.1, g7.1, g8.1, g9.1,
    mean?_of_ne_nil g1.2, max?_of_ne_nil g2.2, mean?_of_ne_nil g2.2,
    max?_of_ne_nil g3.2, mean?_of_ne_nil g4.2, max?_of_ne_nil g5.2,
    min?_of_ne_nil g6.2, mean?_of_ne_nil g7.2, min?_of_ne_nil g8.2,
    max?_of_ne_nil g8.2, min?_of_ne_nil g9.2, max?_of_ne_nil g9.2,
    Option.some_bind]

/-- Claim C2: for the table `dfEx` with known column values (its coolant
column is `[80, 82, 84]`), the rounded aggregates of `summarize_data` equal
the hand-computed reference record, and in particular the `engine_temp_avg`
entry equals `82.0`. -/
theorem summary_reference_values :
    (summarize_data dfEx).2 =
      some ⟨82, 3000, 2000, 30, 2, 30, 5, 30, (1, 3), (2, 4)⟩ ∧
    ((summarize_data dfEx).2.map fun s => s.engine_temp_avg) = some 82 := by
  decide

/-- Claim C3 (amended: the columns whose absence makes `summarize_data`
raise are the nine distinct names it subscripts — `Time`, though listed
among the ten required interface columns, is only needed later by the chart
stage): a table that after header normalization lacks one of the
subscripted columns yields no Summary Record; the lookup failure (`none`,
the `KeyError`) propagates. -/
theorem summarize_missing_column_fails (df : DataFrame)
    (h : ∃ c ∈ summaryColumns, (normalize_columns df).col? c = none) :
    (summarize_data df).2 = none := by
  rcases h with ⟨c, hc, hnone⟩
  rcases hv : (summarize_data df).2 with _ | s
  · rfl
  · exfalso
    rcases summarize_data_eq_some hv with ⟨l1, l2, l3, l4, l5, l6, l7, l8, l9,
      hc1, hc2, hc3, hc4, hc5, hc6, hc7, hc8, hc9,
      -, -, -, -, -, -, -, -, -, -⟩
    simp only [summaryColumns, List.mem_cons, List.not_mem_nil, or_false] at hc
    rcases hc with rfl | rfl | rfl | rfl | rfl | rfl | rfl | rfl | rfl
    · rw [hc1] at hnone; exact Option.noConfusion hnone
    · rw [hc2] at hnone; exact Option.noConfusion hnone
    · rw [hc3] at hnone; exact Option.noConfusion hnone
    · rw [hc4] at hnone; exact Option.noConfusion hnone
    · rw [hc5] at hnone; exact Option.noConfusion hnone
    · rw [hc6] at hnone; exact Option.noConfusion hnone
    · rw [hc7] at hnone; exact Option.noConfusion hnone
    · rw [hc8] at hnone; exact Option.noConfusion hnone
    · rw [hc9] at hnone; exact Option.noConfusion hnone

/-- Claim C3 counterexample: `dfNoTime` lacks one of the ten required
interface columns (`Time`), yet `summarize_data` does not raise — it
returns a Summary Record, because the Summary Extractor subscripts only
nine distinct columns and `Time` is not among them. -/
theorem ten_columns_cex :
    (∃ c ∈ specRequiredColumns, (normalize_columns dfNoTime).col? c = none) ∧
    (summarize_data dfNoTime).2 ≠ none := by
  constructor
  · exact ⟨"Time", by decide, by decide⟩
  · decide

/-- Claim C3 witness: the table `dfM` misses the subscripted column
`Engine RPM [RPM]`, and `summarize_data` yields no Summary Record. -/
theorem summarize_missing_column_fails_witness :
    (∃ c ∈ summaryColumns, (normalize_columns dfM).col? c = none) ∧
    (summarize_data dfM).2 = none :=
  ⟨⟨"Engine RPM [RPM]", by decide, by decide⟩,
   summarize_missing_column_fails dfM ⟨"Engine RPM [RPM]", by decide, by decide⟩⟩

/-- Claim C4: on a table with all ten required columns present but zero
rows, `summarize_data` never returns a Summary Record (the original raises
at the aggregates of the empty series). -/
theorem summarize_empty_table_fails (df : DataFrame)
    (hcols : ∀ c ∈ specRequiredColumns, (normalize_columns df).col? c ≠ none)
    (hrect : ∀ p ∈ df.cols, p.2.length = 0) :
    (summarize_data df).2 = none := by
  rcases hv : (summarize_data df).2 with _ | s
  · rfl
  · exfalso
    rcases summarize_data_eq_some hv with ⟨l1, l2, l3, l4, l5, l6, l7, l8, l9,
      hc1, -, -, -, -, -, -, -, -,
      hne1, -, -, -, -, -, -, -, -, -⟩
    exact hne1 (List.length_eq_zero.mp
      (col?_length hc1 (normalize_columns_length hrect)))

/-- Claim C4 witness: the ten-column zero-row table `dfE` satisfies the
hypotheses and gets no Summary Record. -/
theorem summarize_empty_table_fails_witness :
    (∀ c ∈ specRequiredColumns, (normalize_columns dfE).col? c ≠ none) ∧
    (∀ p ∈ dfE.cols, p.2.length = 0) ∧
    (summarize_data dfE).2 = none :=
  ⟨by decide, by decide, summarize_empty_table_fails dfE (by decide) (by decide)⟩

/-- Claim C7: `create_pdf` returns `none` exactly when the renderer
reports an error, and otherwise a buffer holding the rendered bytes at
position 0; the `/download` handler turns `none` into the fixed HTTP 500
plain-text response and a buffer into a PDF attachment named
`vehicle_report.pdf`. -/
theorem create_pdf_download_behavior (render : String → PisaStatus)
    (report_html : String) :
    if (render report_html).err = true then
      create_pdf render report_html = none ∧
      download render report_html = .plain ("Failed to generate PDF") 500
    else
      ∃ b, create_pdf render report_html = some b ∧ b.pos = 0 ∧
        b.data = (render report_html).bytes ∧
        download render report_html =
          .file b ("application/pdf") true ("vehicle_report.pdf") := by
  by_cases he : (render report_html).err = true
  · rw [if_pos he]
    exact ⟨by simp [create_pdf, he], by simp [download, create_pdf, he]⟩
  · rw [if_neg he]
    exact ⟨⟨(render report_html).bytes, 0⟩, by simp [create_pdf, he], rfl,
      rfl, by simp [download, create_pdf, he]⟩

/-- Claim C8: a `/generate` request without a file in the `datafile` field
answers HTTP 400 with the fixed body, and nothing further happens — the
response does not even depend on the external services. -/
theorem generate_missing_file_400 (llm : String → String) :
    generate llm none = .badRequest ("No file uploaded") 400 ∧
    ∀ llm2 : String → String, generate llm none = generate llm2 none :=
  ⟨rfl, fun _ => rfl⟩

/-- Claim C1 (amended: the `pedal_d_range` and `pedal_e_range` pairs hold
the raw column minimum and maximum, NOT rounded — only the scalar float
metrics are rounded to 2 decimal places; and the table must be nonempty,
as claim C4 records): for every nonempty table containing the ten required
columns, `summarize_data` returns the Summary Record with exactly the ten
fixed metric keys, each holding the respective column aggregate —
rounded means/maxima/minima for the float metrics, integer casts for
`rpm_max`, `rpm_avg`, `speed_max`, and the raw `(min, max)` pairs for the
pedal ranges. -/
theorem summary_record_values (df : DataFrame) (n : Nat)
    (hcols : ∀ c ∈ specRequiredColumns, (normalize_columns df).col? c ≠ none)
    (hn : n ≠ 0) (hrect : ∀ p ∈ df.cols, p.2.length = n) :
    ∃ s, (summarize_data df).2 = some s ∧
      s.engine_temp_avg =
        round2 (meanL (colD (normalize_columns df) ("Engine Coolant Temperature [C]"))) ∧
      s.rpm_max = pyInt (maxL (colD (normalize_columns df) ("Engine RPM [RPM]"))) ∧
      s.rpm_avg = pyInt (meanL (colD (normalize_columns df) ("Engine RPM [RPM]"))) ∧
      s.speed_max = pyInt (maxL (colD (normalize_columns df) ("Vehicle Speed Sensor [km/h]"))) ∧
      s.maf_avg =
        round2 (meanL (colD (normalize_columns df) ("Air Flow Rate from Mass Flow Sensor [g/s]"))) ∧
      s.throttle_max =
        round2 (maxL (colD (normalize_columns df) ("Absolute Throttle Position [%]"))) ∧
      s.ambient_min =
        round2 (minL (colD (normalize_columns df) ("Ambient Air Temperature [C]"))) ∧
      s.intake_temp_avg =
        round2 (meanL (colD (normalize_columns df) ("Intake Air Temperature [C]"))) ∧
      s.pedal_d_range =
        (minL (colD (normalize_columns df) ("Accelerator Pedal Position D [%]")),
         maxL (colD (normalize_columns df) ("Accelerator Pedal Position D [%]"))) ∧
      s.pedal_e_range =
        (minL (colD (normalize_columns df) ("Accelerator Pedal Position E [%]")),
         maxL (colD (normalize_columns df) ("Accelerator Pedal Position E [%]"))) := by
  have hcols9 : ∀ c ∈ summaryColumns, (normalize_columns df).col? c ≠ none :=
    fun c hc => hcols c (List.mem_cons_of_mem _ hc)
  exact ⟨_, summarize_data_of_cols hcols9 hn hrect,
    rfl, rfl, rfl, rfl, rfl, rfl, rfl, rfl, rfl, rfl⟩

/-- Claim C1 counterexample: on the table `dfP`, whose pedal D column is
`[1.234, 2]`, the first component of `pedal_d_range` is the raw minimum
`1.234`, which differs from its 2-decimal rounding `1.23` — the pair
components are NOT rounded, contradicting the claim as stated. -/
theorem summary_pedal_unrounded_cex :
    ((summarize_data dfP).2.map fun s => s.pedal_d_range.1) =
      some ((1234 : Q) / 1000) ∧
    round2 ((1234 : Q) / 1000) = (123 : Q) / 100 ∧
    ((1234 : Q) / 1000) ≠ ((123 : Q) / 100) := by
  decide

/-- Claim C1 witness: the clean three-row table `dfEx` satisfies the
hypotheses, and its Summary Record holds the stated aggregates. -/
theorem summary_record_values_witness :
    (∀ c ∈ specRequiredColumns, (normalize_columns dfEx).col? c ≠ none) ∧
    ((3 : Nat) ≠ 0) ∧
    (∀ p ∈ dfEx.cols, p.2.length = 3) ∧
    (∃ s, (summarize_data dfEx).2 = some s ∧
      s.engine_temp_avg =
        round2 (meanL (colD (normalize_columns dfEx) ("Engine Coolant Temperature [C]"))) ∧
      s.rpm_max = pyInt (maxL (colD (normalize_columns dfEx) ("Engine RPM [RPM]"))) ∧
      s.rpm_avg = pyInt (meanL (colD (normalize_columns dfEx) ("Engine RPM [RPM]"))) ∧
      s.speed_max = pyInt (maxL (colD (normalize_columns dfEx) ("Vehicle Speed Sensor [km/h]"))) ∧
      s.maf_avg =
        round2 (meanL (colD (normalize_columns dfEx) ("Air Flow Rate from Mass Flow Sensor [g/s]"))) ∧
      s.throttle_max =
        round2 (maxL (colD (normalize_columns dfEx) ("Absolute Throttle Position [%]"))) ∧
      s.ambient_min =
        round2 (minL (colD (normalize_columns dfEx) ("Ambient Air Temperature [C]"))) ∧
      s.intake_temp_avg =
        round2 (meanL (colD (normalize_columns dfEx) ("Intake Air Temperature [C]"))) ∧
      s.pedal_d_range =
        (minL (colD (normalize_columns dfEx) ("Accelerator Pedal Position D [%]")),
         maxL (colD (normalize_columns dfEx) ("Accelerator Pedal Position D [%]"))) ∧
      s.pedal_e_range =
        (minL (colD (normalize_columns dfEx) ("Accelerator Pedal Position E [%]")),
         maxL (colD (normalize_columns dfEx) ("Accelerator Pedal Position E [%]")))) :=
  ⟨by decide, by decide, by decide,
   summary_record_values dfEx 3 (by decide) (by decide) (by decide)⟩

/-- Claim C5 (amended: the pedal range components appear as the raw,
unrounded min/max values — see the counterexample — while the scalar
metrics appear as their summary values, integers for RPM and speed and the
already-rounded floats for the others): `build_question` is a pure
interpolation whose output contains the `str()` rendering of every one of
the ten record values, both pair components included. -/
theorem prompt_contains_all_values (s : Summary) :
    containsSub (build_question s) (floatRepr s.engine_temp_avg) ∧
    containsSub (build_question s) (toString s.rpm_max) ∧
    containsSub (build_question s) (toString s.rpm_avg) ∧
    containsSub (build_question s) (toString s.speed_max) ∧
    containsSub (build_question s) (floatRepr s.maf_avg) ∧
    containsSub (build_question s) (floatRepr s.throttle_max) ∧
    containsSub (build_question s) (floatRepr s.ambient_min) ∧
    containsSub (build_question s) (floatRepr s.intake_temp_avg) ∧
    containsSub (build_question s) (floatRepr s.pedal_d_range.1) ∧
    containsSub (build_question s) (floatRepr s.pedal_d_range.2) ∧
    containsSub (build_question s) (floatRepr s.pedal_e_range.1) ∧
    containsSub (build_question s) (floatRepr s.pedal_e_range.2) := by
  refine ⟨?_, ?_, ?_, ?_, ?_, ?_, ?_, ?_, ?_, ?_, ?_, ?_⟩ <;>
  · simp only [build_question]
    repeat first
      | exact containsSub_appr _ _ _ (containsSub_refl _)
      | apply containsSub_appl

set_option maxRecDepth 8192 in
/-- Claim C5 counterexample: for the Summary Record of `dfP`, whose pedal D
minimum is `1.234`, the prompt shows `Pedal D: 1.234% to 2.0%` — the pair
component is rendered with three decimals (the raw value), not as the
two-decimal float `1.23` the claim prescribes. -/
theorem prompt_pedal_two_decimals_cex :
    ∃ s, (summarize_data dfP).2 = some s ∧
      s.pedal_d_range.1 = (1234 : Q) / 1000 ∧
      floatRepr s.pedal_d_range.1 = "1.234" ∧
      containsSub (build_question s) ("- Pedal D: 1.234% to 2.0%") ∧
      floatRepr (round2 s.pedal_d_range.1) = "1.23" ∧
      ("1.234" : String) ≠ "1.23" := by
  refine ⟨⟨85, 2000, 1500, 20, 2, 30, 5, 30, ((1234 : Q) / 1000, 2), (1, 2)⟩,
    by decide, by decide, by decide, ?_, by decide, by decide⟩
  exact ⟨"\nBased on the summarized OBD-II vehicle data over time, provide a detailed diagnostic report:\n1. Assess overall vehicle health.\n2. Identify anomalies or issues.\n3. Suggest maintenance tips.\n\nData Summary:\n- Avg Engine Coolant Temp: 85.0 °C\n- Max Engine RPM: 2000 RPM\n- Avg Engine RPM: 1500 RPM\n- Max Speed: 20 km/h\n- Avg Air Flow (MAF): 2.0 g/s\n- Max Throttle: 30.0 %\n- Min Ambient Temp: 5.0 °C\n- Avg Intake Air Temp: 30.0 °C\n",
    "\n- Pedal E: 1.0% to 2.0%\n", by decide⟩

theorem mem_dropWhile {α : Type} (p : α → Bool) (l : List α) (c : α)
    (h : c ∈ l.dropWhile p) : c ∈ l := by
  induction l with
  | nil => simpa [List.dropWhile] using h
  | cons a as ih =>
    rw [List.dropWhile_cons] at h
    by_cases hp : p a
    · simp only [hp, if_true] at h
      exact List.mem_cons_of_mem _ (ih h)
    · simpa [hp] using h

theorem mem_pyStripChars {l : List Char} {c : Char}
    (h : c ∈ pyStripChars l) : c ∈ l := by
  unfold pyStripChars at h
  rw [List.mem_reverse] at h
  have h2 := mem_dropWhile _ _ _ h
  rw [List.mem_reverse] at h2
  exact mem_dropWhile _ _ _ h2

theorem generate_ok_inv {llm : String → String} {df : DataFrame} {r : String}
    {gs : List (Chart × String)} {t : String}
    (h : generate llm (some df) = .ok r gs t) :
    ∃ s, (summarize_data df).2 = some s ∧
      make_graphs (summarize_data df).1 = some gs ∧
      r = generate_report llm (build_question s) ∧
      t = generate_summary_table s := by
  have h2 : (match summarize_data df with
      | (_, none) => GenResponse.serverError
      | (df2, some summary) =>
        match make_graphs df2 with
        | none => GenResponse.serverError
        | some graphs =>
          GenResponse.ok (generate_report llm (build_question summary)) graphs
            (generate_summary_table summary)) = GenResponse.ok r gs t := h
  rcases hsd : summarize_data df with ⟨df2, os⟩
  rw [hsd] at h2
  rcases os with _ | s
  · simp at h2
  · have h3 : (match make_graphs df2 with
        | none => GenResponse.serverError
        | some graphs =>
          GenResponse.ok (generate_report llm (build_question s)) graphs
            (generate_summary_table s)) = GenResponse.ok r gs t := h2
    rcases hmg : make_graphs df2 with _ | gs0
    · rw [hmg] at h3
      simp at h3
    · rw [hmg] at h3
      simp only [GenResponse.ok.injEq] at h3
      rcases h3 with ⟨hr, hgs, ht⟩
      refine ⟨s, rfl, ?_, hr.symm, ht.symm⟩
      exact congrArg some hgs

theorem make_graphs_eq_some {df : DataFrame} {gs : List (Chart × String)}
    (h : make_graphs df = some gs) :
    ∃ ts y1 y2 y3 y4,
      df.col? ("Time") = some ts ∧
      df.col? ("Engine Coolant Temperature [C]") = some y1 ∧
      df.col? ("Engine RPM [RPM]") = some y2 ∧
      df.col? ("Vehicle Speed Sensor [km/h]") = some y3 ∧
      df.col? ("Accelerator Pedal Position D [%]") = some y4 ∧
      gs = [(⟨ts, y1, "lines", "Engine Coolant Temperature [C]",
              "Engine Coolant Temperature Over Time", "Timestamp",
              "Engine Coolant Temperature [C]"⟩, "Monitors engine warming."),
            (⟨ts, y2, "lines", "Engine RPM [RPM]", "Engine RPM Over Time",
              "Timestamp", "Engine RPM [RPM]"⟩,
             "Shows engine revolutions per minute during operation."),
            (⟨ts, y3, "lines", "Vehicle Speed Sensor [km/h]",
              "Vehicle Speed Over Time", "Timestamp",
              "Vehicle Speed Sensor [km/h]"⟩, "Helps assess speed behavior."),
            (⟨ts, y4, "lines", "Accelerator Pedal Position D [%]",
              "Pedal D Position Over Time", "Timestamp",
              "Accelerator Pedal Position D [%]"⟩,
             "Reflects throttle input from driver.")] := by
  simp only [make_graphs, create_graph, Option.bind_eq_some,
    Option.some.injEq] at h
  obtain ⟨g1, ⟨ts1, hts1, y1, hy1, hg1⟩, g2, ⟨ts2, hts2, y2, hy2, hg2⟩,
    g3, ⟨ts3, hts3, y3, hy3, hg3⟩, g4, ⟨ts4, hts4, y4, hy4, hg4⟩, hgs⟩ := h
  have e2 : ts1 = ts2 := by rw [hts1] at hts2; exact Option.some.inj hts2
  have e3 : ts1 = ts3 := by rw [hts1] at hts3; exact Option.some.inj hts3
  have e4 : ts1 = ts4 := by rw [hts1] at hts4; exact Option.some.inj hts4
  subst e2; subst e3; subst e4
  refine ⟨ts1, y1, y2, y3, y4, hts1, hy1, hy2, hy3, hy4, ?_⟩
  rw [← hgs, ← hg1, ← hg2, ← hg3, ← hg4]

/-- Claim C6: every successful `/generate` response carries exactly four
chart fragments, in order the coolant temperature, RPM, speed and pedal D
position signals, each a single-series `lines` plot of the signal column
against the `Time` column of the (header-normalized) frame, whose y-axis
label is the signal column name (also the series name), whose title names
the signal, and which is paired with its fixed one-sentence explanation. -/
theorem generate_four_charts (llm : String → String) (df : DataFrame)
    (r : String) (gs : List (Chart × String)) (t : String)
    (h : generate llm (some df) = .ok r gs t) :
    gs.length = 4 ∧
    gs.map (fun g => (g.1.mode, g.1.xaxis_title, g.1.yaxis_title,
      g.1.title, g.2)) =
      [("lines", "Timestamp", "Engine Coolant Temperature [C]",
        "Engine Coolant Temperature Over Time", "Monitors engine warming."),
       ("lines", "Timestamp", "Engine RPM [RPM]", "Engine RPM Over Time",
        "Shows engine revolutions per minute during operation."),
       ("lines", "Timestamp", "Vehicle Speed Sensor [km/h]",
        "Vehicle Speed Over Time", "Helps assess speed behavior."),
       ("lines", "Timestamp", "Accelerator Pedal Position D [%]",
        "Pedal D Position Over Time", "Reflects throttle input from driver.")] ∧
    ∀ g ∈ gs, (summarize_data df).1.col? ("Time") = some g.1.x ∧
      (summarize_data df).1.col? g.1.yaxis_title = some g.1.y ∧
      g.1.series_name = g.1.yaxis_title := by
  rcases generate_ok_inv h with ⟨s, -, hmg, -, -⟩
  rcases make_graphs_eq_some hmg with
    ⟨ts, y1, y2, y3, y4, hts, hy1, hy2, hy3, hy4, rfl⟩
  refine ⟨rfl, rfl, ?_⟩
  intro g hg
  simp only [List.mem_cons, List.not_mem_nil, or_false] at hg
  rcases hg with rfl | rfl | rfl | rfl
  · exact ⟨hts, hy1, rfl⟩
  · exact ⟨hts, hy2, rfl⟩
  · exact ⟨hts, hy3, rfl⟩
  · exact ⟨hts, hy4, rfl⟩

/-- Claim C6 witness: the clean table `dfEx` produces a successful
response whose four charts satisfy the stated properties. -/
theorem generate_four_charts_witness :
    (generate llm0 (some dfEx) = .ok genExReport genExGraphs genExTable) ∧
    (genExGraphs.length = 4 ∧
     genExGraphs.map (fun g => (g.1.mode, g.1.xaxis_title, g.1.yaxis_title,
       g.1.title, g.2)) =
       [("lines", "Timestamp", "Engine Coolant Temperature [C]",
         "Engine Coolant Temperature Over Time", "Monitors engine warming."),
        ("lines", "Timestamp", "Engine RPM [RPM]", "Engine RPM Over Time",
         "Shows engine revolutions per minute during operation."),
        ("lines", "Timestamp", "Vehicle Speed Sensor [km/h]",
         "Vehicle Speed Over Time", "Helps assess speed behavior."),
        ("lines", "Timestamp", "Accelerator Pedal Position D [%]",
         "Pedal D Position Over Time", "Reflects throttle input from driver.")] ∧
     ∀ g ∈ genExGraphs, (summarize_data dfEx).1.col? ("Time") = some g.1.x ∧
       (summarize_data dfEx).1.col? g.1.yaxis_title = some g.1.y ∧
       g.1.series_name = g.1.yaxis_title) :=
  ⟨rfl, generate_four_charts llm0 dfEx genExReport genExGraphs genExTable rfl⟩

/-- Claim C9: the Column Normalizer maps every header to itself with the
non-ASCII characters removed and surrounding whitespace stripped, touches
nothing else (column data, order and count are unchanged), and is a total
operation — it never fails itself; missing expected names surface only at
later lookups.  Each normalized header contains only ASCII characters from
the original header and neither starts nor ends with whitespace. -/
theorem column_normalizer_spec (df : DataFrame) :
    (normalize_columns df).cols.map Prod.snd = df.cols.map Prod.snd ∧
    (normalize_columns df).cols.map Prod.fst =
      df.cols.map (fun p => normalizeHeader p.1) ∧
    (summarize_data df).1 = normalize_columns df ∧
    ∀ p ∈ (normalize_columns df).cols,
      (∀ c ∈ p.1.data, c ∈ p.1.data → c.toNat ≤ 127) ∧
      (∀ c, p.1.data.head? = some c → isPySpace c = false) ∧
      (∀ c, p.1.data.getLast? = some c → isPySpace c = false) := by
  refine ⟨?_, ?_, rfl, ?_⟩
  · simp [normalize_columns, List.map_map, Function.comp]
  · simp [normalize_columns, List.map_map, Function.comp]
  · intro p hp
    simp only [normalize_columns, List.mem_map] at hp
    rcases hp with ⟨q, hq, rfl⟩
    refine ⟨?_, ?_, ?_⟩
    · intro c hc _
      have hc2 : c ∈ (q.1.data.filter (fun c => c.toNat ≤ 127)) :=
        mem_pyStripChars hc
      have := (List.mem_filter.mp hc2).2
      exact of_decide_eq_true this
    · intro c hch
      have h1 : ((((q.1.data.filter (fun c => c.toNat ≤ 127)).dropWhile
          isPySpace).reverse.dropWhile isPySpace).reverse).head? = some c := hch
      rw [List.head?_reverse] at h1
      have h2 := getLast?_dropWhile _ _ _ h1
      rw [List.getLast?_reverse] at h2
      exact head?_dropWhile_false _ _ _ h2
    · intro c hcl
      have h1 : ((((q.1.data.filter (fun c => c.toNat ≤ 127)).dropWhile
          isPySpace).reverse.dropWhile isPySpace).reverse).getLast? = some c := hcl
      rw [List.getLast?_reverse] at h1
      exact head?_dropWhile_false _ _ _ h1

/-- Claim C10: `summarize_data` updates the caller's frame (the mutation of
`df.columns`, made explicit here as the first returned component): headers
are replaced by their normalized forms while every column's cell data — and
with it the row count — is unchanged; and on every successful `/generate`
run the four `create_graph` calls read exactly this updated frame, so their
column lookups are resolved under the normalized names. -/
theorem summarize_mutation_frame (llm : String → String) (df : DataFrame)
    (r : String) (gs : List (Chart × String)) (t : String)
    (h : generate llm (some df) = .ok r gs t) :
    (summarize_data df).1.cols.map Prod.snd = df.cols.map Prod.snd ∧
    (summarize_data df).1.cols.map Prod.fst =
      df.cols.map (fun p => normalizeHeader p.1) ∧
    make_graphs (summarize_data df).1 = some gs := by
  rcases generate_ok_inv h with ⟨s, -, hmg, -, -⟩
  refine ⟨?_, ?_, hmg⟩
  · simp [summarize_data, normalize_columns, List.map_map, Function.comp]
  · simp [summarize_data, normalize_columns, List.map_map, Function.comp]

/-- Claim C10 witness: on the dirty-header table `dfDirty` the raw frame
does not answer the clean lookups (`Time` is absent before normalization),
yet the pipeline succeeds because the chart stage reads the mutated frame. -/
theorem summarize_mutation_frame_witness :
    (generate llm0 (some dfDirty) =
      .ok genDirtyReport genDirtyGraphs genDirtyTable) ∧
    dfDirty.col? ("Time") = none ∧
    dfDirty.col? ("Engine Coolant Temperature [C]") = none ∧
    ((summarize_data dfDirty).1.cols.map Prod.snd =
       dfDirty.cols.map Prod.snd ∧
     (summarize_data dfDirty).1.cols.map Prod.fst =
       dfDirty.cols.map (fun p => normalizeHeader p.1) ∧
     make_graphs (summarize_data dfDirty).1 = some genDirtyGraphs) :=
  ⟨rfl, by decide, by decide,
   summarize_mutation_frame llm0 dfDirty genDirtyReport genDirtyGraphs
     genDirtyTable rfl⟩
